import Mathlib

/-!
Verification of the Plant Health Monitoring System sketch
(src/smartirrigation_finalcode.ino).

The sketch is shallowly embedded: global mutable state becomes an explicit
`Snapshot` record threaded through a `loopStep` function, Arduino's integer
`map` becomes a function on `ℤ` using truncating division (C `long` division),
`float` sensor values become `ℚ`, and the two asynchronous HTTP handlers become
pure functions from a snapshot to a status-code/body pair.
-/

namespace SmartPlant

/-- A GPIO pin level as written by `digitalWrite`. -/
inductive PinLevel
  | LOW
  | HIGH
  deriving DecidableEq

/-- `const int MAX_WIFI_RETRIES = 10;` -/
def MAX_WIFI_RETRIES : Nat := 10

/-- `const int WIFI_RETRY_DELAY = 1000;` -/
def WIFI_RETRY_DELAY : Nat := 1000

/-- Arduino's integer `map(x, in_min, in_max, out_min, out_max)`:
`(x - in_min) * (out_max - out_min) / (in_max - in_min) + out_min` on C `long`
values, whose division truncates toward zero (`Int.tdiv`). -/
def map (x in_min in_max out_min out_max : ℤ) : ℤ :=
  ((x - in_min) * (out_max - out_min)).tdiv (in_max - in_min) + out_min

/-- Line 130: `moisturePercentage = map(rawMoisture, 405, 870, 100, 0);`
(the `long` result is stored in a `float`, embedded as `ℚ`). -/
def moisturePercentageOf (rawMoisture : ℤ) : ℚ :=
  ((map rawMoisture 405 870 100 0 : ℤ) : ℚ)

/-- Lines 134-135: `lightPercentage = (lightIntensity / 1000.0) * 100.0;`
then `if (lightPercentage > 100) lightPercentage = 100;`. -/
def lightPercentageOf (lightIntensity : ℚ) : ℚ :=
  let lightPercentage := lightIntensity / 1000 * 100
  if lightPercentage > 100 then 100 else lightPercentage

/-- Lines 145-149: drive the relay LOW (pump on) when `moisturePercentage < 50`,
else HIGH (pump off). -/
def relayCommand (moisturePercentage : ℚ) : PinLevel :=
  if moisturePercentage < 50 then PinLevel.LOW else PinLevel.HIGH

/-- Result of `updatePlantHealth`: the two globals it writes. -/
structure HealthResult where
  status : String
  reason : String
  deriving DecidableEq

/-- Lines 48-72: `updatePlantHealth()`, with the four globals it reads passed
explicitly.  Each block mirrors one `if` statement of the source: a violated
range check overwrites the status with "At Risk" and appends one fragment. -/
def updatePlantHealth (temperature humidity lightPercentage moisturePercentage : ℚ) :
    HealthResult :=
  let plantHealthStatus : String := "Good"
  let plantHealthReason : String := ""
  let s1 : String × String :=
    if temperature < 18 ∨ temperature > 24 then
      ("At Risk", plantHealthReason ++
        (if temperature < 18 then "Temperature too low; " else "Temperature too high; "))
    else
      (plantHealthStatus, plantHealthReason)
  let s2 : String × String :=
    if humidity < 40 ∨ humidity > 65 then
      ("At Risk", s1.2 ++
        (if humidity < 40 then "Humidity too low; " else "Humidity too high; "))
    else
      s1
  let s3 : String × String :=
    if lightPercentage < 60 ∨ lightPercentage > 80 then
      ("At Risk", s2.2 ++
        (if lightPercentage < 60 then "Light too low; " else "Light too high; "))
    else
      s2
  let s4 : String × String :=
    if moisturePercentage < 50 ∨ moisturePercentage > 80 then
      ("At Risk", s3.2 ++
        (if moisturePercentage < 50 then "Moisture too low" else "Moisture too high"))
    else
      s3
  ⟨s4.1, s4.2⟩

/-- The process-wide mutable globals of the sketch (lines 36-46). -/
structure Snapshot where
  moisturePercentage : ℚ
  lightPercentage : ℚ
  temperature : ℚ
  humidity : ℚ
  plantType : String
  plantHealthStatus : String
  plantHealthReason : String

/-- The initial values of the globals (lines 36-46). -/
def initialSnapshot : Snapshot :=
  ⟨0, 0, 0, 0, "Default Plant", "Good", ""⟩

/-- One iteration of `loop()` (lines 127-172): read sensors, convert, classify,
and drive the relay.  Sensor inputs are parameters; display output is omitted
(it writes no program state).  Returns the updated globals and the level
written to the relay pin. -/
def loopStep (s : Snapshot) (rawMoisture : ℤ) (lightIntensity temperatureIn humidityIn : ℚ) :
    Snapshot × PinLevel :=
  let moisturePercentage := moisturePercentageOf rawMoisture
  let lightPercentage := lightPercentageOf lightIntensity
  let temperature := temperatureIn
  let humidity := humidityIn
  let health := updatePlantHealth temperature humidity lightPercentage moisturePercentage
  let relay := relayCommand moisturePercentage
  (⟨moisturePercentage, lightPercentage, temperature, humidity,
    s.plantType, health.status, health.reason⟩, relay)

/-- One tick's worth of sensor inputs. -/
structure LoopInput where
  rawMoisture : ℤ
  lightIntensity : ℚ
  temperature : ℚ
  humidity : ℚ

/-- The state after `n` iterations of `loop()` from boot, given the sensor
inputs of every tick. -/
def runLoop (inputs : Nat → LoopInput) : Nat → Snapshot
  | 0 => initialSnapshot
  | n + 1 =>
    let s := runLoop inputs n
    let i := inputs n
    (loopStep s i.rawMoisture i.lightIntensity i.temperature i.humidity).1

/-- Lines 187-193: the `GET /health` handler.  Returns the HTTP status code and
the JSON body built from the current globals. -/
def healthHandler (s : Snapshot) : Nat × String :=
  let json := "\x7b"
  let json := json ++ "\"status\":\"" ++ s.plantHealthStatus ++ "\","
  let json := json ++ "\"reason\":\"" ++ s.plantHealthReason ++ "\""
  let json := json ++ "\x7d"
  (200, json)

/-- Lines 176-184: the `GET /readings` handler.  `numToString` stands for
Arduino's `String(float)` rendering. -/
def readingsHandler (numToString : ℚ → String) (s : Snapshot) : Nat × String :=
  let json := "\x7b"
  let json := json ++ "\"moisture\":" ++ numToString s.moisturePercentage ++ ","
  let json := json ++ "\"light\":" ++ numToString s.lightPercentage ++ ","
  let json := json ++ "\"temperature\":" ++ numToString s.temperature ++ ","
  let json := json ++ "\"humidity\":" ++ numToString s.humidity
  let json := json ++ "\x7d"
  (200, json)

/-- Lines 112-116: the Wi-Fi retry loop of `setup()`.  `connected k` is the
result of the `WiFi.status() == WL_CONNECTED` poll before attempt `k`; the
function returns the final value of `wifiRetries`. -/
def wifiLoop (connected : Nat → Bool) (wifiRetries : Nat) : Nat :=
  if h : connected wifiRetries = false ∧ wifiRetries < MAX_WIFI_RETRIES then
    wifiLoop connected (wifiRetries + 1)
  else
    wifiRetries
termination_by MAX_WIFI_RETRIES - wifiRetries
decreasing_by omega

/-- Observable outcome of `setup()` relevant to initialization claims. -/
structure SetupResult where
  wifiRetries : Nat
  totalDelayMs : Nat
  routesSetUp : Bool
  serverStarted : Bool

/-- Lines 89-125: `setup()`.  The retry loop delays `WIFI_RETRY_DELAY` ms per
attempt; `setupServerRoutes()` (which also calls `server.begin()`) runs
unconditionally after the connection attempt, on both branches of the
success check. -/
def setup (connected : Nat → Bool) : SetupResult :=
  let wifiRetries := wifiLoop connected 0
  ⟨wifiRetries, wifiRetries * WIFI_RETRY_DELAY, true, true⟩

/-- One threshold block of `updatePlantHealth` viewed as the fragment it
appends: the low message below `lo`, the high message above `hi`, else
nothing. -/
def rangePart (x lo hi : ℚ) (lowMsg highMsg : String) : String :=
  if x < lo then lowMsg else if x > hi then highMsg else ""

/-- Fragment appended by the temperature check (lines 53-56). -/
def tempPart (temperature : ℚ) : String :=
  rangePart temperature 18 24 "Temperature too low; " "Temperature too high; "

/-- Fragment appended by the humidity check (lines 58-61). -/
def humidityPart (humidity : ℚ) : String :=
  rangePart humidity 40 65 "Humidity too low; " "Humidity too high; "

/-- Fragment appended by the light check (lines 63-66). -/
def lightPart (lightPercentage : ℚ) : String :=
  rangePart lightPercentage 60 80 "Light too low; " "Light too high; "

/-- Fragment appended by the moisture check (lines 68-71). -/
def moisturePart (moisturePercentage : ℚ) : String :=
  rangePart moisturePercentage 50 80 "Moisture too low" "Moisture too high"

/-- At least one of the four range checks fires. -/
def anyViolation (t h l m : ℚ) : Prop :=
  (t < 18 ∨ t > 24) ∨ (h < 40 ∨ h > 65) ∨ (l < 60 ∨ l > 80) ∨ (m < 50 ∨ m > 80)

instance (t h l m : ℚ) : Decidable (anyViolation t h l m) := by
  unfold anyViolation
  infer_instance

/-- `frag` occurs as a contiguous substring of `s`. -/
def strContains (s frag : String) : Prop :=
  ∃ a b : String, s = a ++ frag ++ b

theorem block_snd (x lo hi : ℚ) (lm hm : String) (s : String × String) :
    (if x < lo ∨ x > hi then (("At Risk" : String), s.2 ++ (if x < lo then lm else hm))
      else s).2 = s.2 ++ rangePart x lo hi lm hm := by
  unfold rangePart
  by_cases h1 : x < lo
  · simp [h1]
  · by_cases h2 : x > hi
    · simp [h1, h2]
    · simp [h1, h2]

theorem block1_snd (x lo hi : ℚ) (lm hm : String) :
    (if x < lo ∨ x > hi then (("At Risk" : String), "" ++ (if x < lo then lm else hm))
      else (("Good" : String), ("" : String))).2 = rangePart x lo hi lm hm := by
  unfold rangePart
  by_cases h1 : x < lo
  · simp [h1]
  · by_cases h2 : x > hi
    · simp [h1, h2]
    · simp [h1, h2]

theorem ite_pair_fst (c : Prop) [Decidable c] (z w : String) (s : String × String) :
    (if c then ((z : String), w) else s).1 = if c then z else s.1 := by
  split_ifs <;> rfl

theorem reason_eq (t h l m : ℚ) :
    (updatePlantHealth t h l m).reason =
      tempPart t ++ humidityPart h ++ lightPart l ++ moisturePart m := by
  simp only [updatePlantHealth]
  rw [block_snd, block_snd, block_snd, block1_snd]
  simp only [tempPart, humidityPart, lightPart, moisturePart]

theorem status_eq (t h l m : ℚ) :
    (updatePlantHealth t h l m).status =
      if anyViolation t h l m then "At Risk" else "Good" := by
  simp only [updatePlantHealth]
  rw [ite_pair_fst, ite_pair_fst, ite_pair_fst, ite_pair_fst]
  unfold anyViolation
  by_cases hc1 : t < 18 ∨ t > 24 <;> by_cases hc2 : h < 40 ∨ h > 65 <;>
    by_cases hc3 : l < 60 ∨ l > 80 <;> by_cases hc4 : m < 50 ∨ m > 80 <;>
      simp [hc1, hc2, hc3, hc4]

theorem strContains_iff (s frag : String) :
    strContains s frag ↔ frag.data <:+: s.data := by
  constructor
  · rintro ⟨a, b, rfl⟩
    exact ⟨a.data, b.data, by simp [String.data_append]⟩
  · rintro ⟨l₁, l₂, h⟩
    refine ⟨⟨l₁⟩, ⟨l₂⟩, String.ext ?_⟩
    simp [String.data_append, ← h]

theorem infix_app_left {α : Type} (l m n : List α) (h : l <:+: m) : l <:+: m ++ n := by
  obtain ⟨u, v, huv⟩ := h
  exact ⟨u, v ++ n, by rw [← huv]; simp⟩

theorem infix_app_right {α : Type} (l m n : List α) (h : l <:+: n) : l <:+: m ++ n := by
  obtain ⟨u, v, huv⟩ := h
  exact ⟨m ++ u, v, by rw [← huv]; simp⟩

theorem rangePart_low (x lo hi : ℚ) (lm hm : String) (h : x < lo) :
    rangePart x lo hi lm hm = lm := by
  unfold rangePart
  rw [if_pos h]

theorem rangePart_high (x lo hi : ℚ) (lm hm : String) (h1 : ¬ x < lo) (h2 : x > hi) :
    rangePart x lo hi lm hm = hm := by
  unfold rangePart
  rw [if_neg h1, if_pos h2]

theorem rangePart_mid (x lo hi : ℚ) (lm hm : String) (h1 : ¬ x < lo) (h2 : ¬ x > hi) :
    rangePart x lo hi lm hm = "" := by
  unfold rangePart
  rw [if_neg h1, if_neg h2]

theorem strAppend_eq_empty_iff (a b : String) : a ++ b = "" ↔ a = "" ∧ b = "" := by
  constructor
  · intro hab
    have hd := congrArg String.data hab
    simp only [String.data_append] at hd
    rw [List.append_eq_nil] at hd
    exact ⟨String.ext (by simp [hd.1]), String.ext (by simp [hd.2])⟩
  · rintro ⟨rfl, rfl⟩
    rfl

theorem rangePart_eq_empty_iff (x lo hi : ℚ) (lm hm : String)
    (hl : lm ≠ "") (hh : hm ≠ "") :
    rangePart x lo hi lm hm = "" ↔ ¬ (x < lo ∨ x > hi) := by
  by_cases h1 : x < lo
  · rw [rangePart_low x lo hi lm hm h1]
    exact iff_of_false hl (by tauto)
  · by_cases h2 : x > hi
    · rw [rangePart_high x lo hi lm hm h1 h2]
      exact iff_of_false hh (by tauto)
    · rw [rangePart_mid x lo hi lm hm h1 h2]
      exact iff_of_true rfl (by tauto)

theorem reason_empty_iff (t h l m : ℚ) :
    (updatePlantHealth t h l m).reason = "" ↔ ¬ anyViolation t h l m := by
  rw [reason_eq, strAppend_eq_empty_iff, strAppend_eq_empty_iff, strAppend_eq_empty_iff]
  unfold tempPart humidityPart lightPart moisturePart
  rw [rangePart_eq_empty_iff _ _ _ _ _ (by decide) (by decide),
    rangePart_eq_empty_iff _ _ _ _ _ (by decide) (by decide),
    rangePart_eq_empty_iff _ _ _ _ _ (by decide) (by decide),
    rangePart_eq_empty_iff _ _ _ _ _ (by decide) (by decide)]
  unfold anyViolation
  tauto

set_option maxRecDepth 100000 in
theorem reason_contains_moisture_low_iff (t h l m : ℚ) :
    strContains (updatePlantHealth t h l m).reason "Moisture too low" ↔ m < 50 := by
  rw [strContains_iff, reason_eq]
  constructor
  · intro hc
    by_contra hm
    unfold tempPart humidityPart lightPart moisturePart at hc
    simp only [String.data_append] at hc
    by_cases h1 : t < 18 <;> by_cases h2 : t > 24 <;>
      by_cases h3 : h < 40 <;> by_cases h4 : h > 65 <;>
        by_cases h5 : l < 60 <;> by_cases h6 : l > 80 <;>
          by_cases h7 : m > 80 <;>
            simp only [rangePart, h1, h2, h3, h4, h5, h6, h7, hm, if_true, if_false,
              ite_true, ite_false] at hc <;>
              exact absurd hc (by decide)
  · intro hm
    have hmp : moisturePart m = "Moisture too low" := by
      unfold moisturePart
      exact rangePart_low m 50 80 _ _ hm
    rw [hmp]
    simp only [String.data_append]
    exact infix_app_right _ _ _ (List.infix_refl _)

theorem map_moisture_eq (r : ℤ) (h1 : 405 ≤ r) :
    map r 405 870 100 0 = 100 - (r - 405) * 100 / 465 := by
  unfold map
  have hn : (r - 405) * (0 - 100) = -((r - 405) * 100) := by ring
  rw [hn, Int.neg_tdiv,
    Int.tdiv_eq_ediv (mul_nonneg (by linarith) (by norm_num)) (by norm_num)]
  omega

theorem moisture_map_in_range (r : ℤ) (h1 : 405 ≤ r) (h2 : r ≤ 870) :
    0 ≤ map r 405 870 100 0 ∧ map r 405 870 100 0 ≤ 100 := by
  rw [map_moisture_eq r h1]
  have hn0 : (0 : ℤ) ≤ (r - 405) * 100 := mul_nonneg (by linarith) (by norm_num)
  have hub : (r - 405) * 100 ≤ 46500 := by nlinarith
  constructor
  · have h100 : ((46500 : ℤ) / 465) = 100 := by decide
    have hle := Int.ediv_le_ediv (show (0:ℤ) < 465 by norm_num) hub
    rw [h100] at hle
    linarith
  · have := Int.ediv_nonneg hn0 (show (0:ℤ) ≤ 465 by norm_num)
    linarith

theorem map_moisture_antitone (r s : ℤ) (h1 : 405 ≤ r) (hrs : r ≤ s) :
    map s 405 870 100 0 ≤ map r 405 870 100 0 := by
  rw [map_moisture_eq r h1, map_moisture_eq s (by linarith)]
  have hle := Int.ediv_le_ediv (show (0:ℤ) < 465 by norm_num)
    (show (r - 405) * 100 ≤ (s - 405) * 100 by nlinarith)
  linarith

theorem runLoop_status (inputs : Nat → LoopInput) (n : Nat) :
    (runLoop inputs n).plantHealthStatus = "Good" ∨
      (runLoop inputs n).plantHealthStatus = "At Risk" := by
  cases n with
  | zero => exact Or.inl rfl
  | succ n =>
    have hs : (runLoop inputs (n + 1)).plantHealthStatus =
        (updatePlantHealth (inputs n).temperature (inputs n).humidity
          (lightPercentageOf (inputs n).lightIntensity)
          (moisturePercentageOf (inputs n).rawMoisture)).status := rfl
    rw [hs, status_eq]
    by_cases hv : anyViolation (inputs n).temperature (inputs n).humidity
      (lightPercentageOf (inputs n).lightIntensity)
      (moisturePercentageOf (inputs n).rawMoisture)
    · exact Or.inr (by rw [if_pos hv])
    · exact Or.inl (by rw [if_neg hv])

theorem wifiLoop_le_aux (connected : Nat → Bool) :
    ∀ k r, MAX_WIFI_RETRIES ≤ r + k → r ≤ MAX_WIFI_RETRIES →
      wifiLoop connected r ≤ MAX_WIFI_RETRIES := by
  intro k
  induction k with
  | zero =>
    intro r hk hr
    rw [wifiLoop]
    have hcond : ¬ (connected r = false ∧ r < MAX_WIFI_RETRIES) := by
      rintro ⟨-, hlt⟩
      omega
    rw [dif_neg hcond]
    exact hr
  | succ k ih =>
    intro r hk hr
    rw [wifiLoop]
    by_cases hcond : connected r = false ∧ r < MAX_WIFI_RETRIES
    · rw [dif_pos hcond]
      have hlt := hcond.2
      exact ih (r + 1) (by omega) (by omega)
    · rw [dif_neg hcond]
      exact hr

theorem wifiLoop_le (connected : Nat → Bool) :
    wifiLoop connected 0 ≤ MAX_WIFI_RETRIES :=
  wifiLoop_le_aux connected MAX_WIFI_RETRIES 0 (by omega) (by omega)

set_option maxRecDepth 100000 in
/-- C1: classify(temperature=16, humidity=70, light=50, moisture=90) yields
status "At Risk" and a reason accumulating all four fragments in the fixed
temperature, humidity, light, moisture order; in general any single violated
range check sets the status to "At Risk" and appends its fragment. -/
theorem C1_classifier_accumulates :
    ((updatePlantHealth 16 70 50 90).status = "At Risk" ∧
      (updatePlantHealth 16 70 50 90).reason =
        "Temperature too low; Humidity too high; Light too low; Moisture too high") ∧
    (∀ t h l m : ℚ, anyViolation t h l m →
      (updatePlantHealth t h l m).status = "At Risk") ∧
    (∀ t h l m : ℚ,
      (t < 18 → strContains (updatePlantHealth t h l m).reason "Temperature too low") ∧
      (t > 24 → strContains (updatePlantHealth t h l m).reason "Temperature too high") ∧
      (h < 40 → strContains (updatePlantHealth t h l m).reason "Humidity too low") ∧
      (h > 65 → strContains (updatePlantHealth t h l m).reason "Humidity too high") ∧
      (l < 60 → strContains (updatePlantHealth t h l m).reason "Light too low") ∧
      (l > 80 → strContains (updatePlantHealth t h l m).reason "Light too high") ∧
      (m < 50 → strContains (updatePlantHealth t h l m).reason "Moisture too low") ∧
      (m > 80 → strContains (updatePlantHealth t h l m).reason "Moisture too high")) := by
  refine ⟨⟨by decide, by decide⟩, ?_, ?_⟩
  · intro t h l m hv
    rw [status_eq, if_pos hv]
  · intro t h l m
    refine ⟨?_, ?_, ?_, ?_, ?_, ?_, ?_, ?_⟩
    · intro hx
      rw [strContains_iff, reason_eq]
      rw [show tempPart t = "Temperature too low; " from rangePart_low _ _ _ _ _ hx]
      simp only [String.data_append]
      exact infix_app_left _ _ _ (infix_app_left _ _ _ (infix_app_left _ _ _ (by decide)))
    · intro hx
      rw [strContains_iff, reason_eq]
      rw [show tempPart t = "Temperature too high; " from
        rangePart_high _ _ _ _ _ (by linarith) hx]
      simp only [String.data_append]
      exact infix_app_left _ _ _ (infix_app_left _ _ _ (infix_app_left _ _ _ (by decide)))
    · intro hx
      rw [strContains_iff, reason_eq]
      rw [show humidityPart h = "Humidity too low; " from rangePart_low _ _ _ _ _ hx]
      simp only [String.data_append]
      exact infix_app_left _ _ _ (infix_app_left _ _ _ (infix_app_right _ _ _ (by decide)))
    · intro hx
      rw [strContains_iff, reason_eq]
      rw [show humidityPart h = "Humidity too high; " from
        rangePart_high _ _ _ _ _ (by linarith) hx]
      simp only [String.data_append]
      exact infix_app_left _ _ _ (infix_app_left _ _ _ (infix_app_right _ _ _ (by decide)))
    · intro hx
      rw [strContains_iff, reason_eq]
      rw [show lightPart l = "Light too low; " from rangePart_low _ _ _ _ _ hx]
      simp only [String.data_append]
      exact infix_app_left _ _ _ (infix_app_right _ _ _ (by decide))
    · intro hx
      rw [strContains_iff, reason_eq]
      rw [show lightPart l = "Light too high; " from
        rangePart_high _ _ _ _ _ (by linarith) hx]
      simp only [String.data_append]
      exact infix_app_left _ _ _ (infix_app_right _ _ _ (by decide))
    · intro hx
      rw [strContains_iff, reason_eq]
      rw [show moisturePart m = "Moisture too low" from rangePart_low _ _ _ _ _ hx]
      simp only [String.data_append]
      exact infix_app_right _ _ _ (by decide)
    · intro hx
      rw [strContains_iff, reason_eq]
      rw [show moisturePart m = "Moisture too high" from
        rangePart_high _ _ _ _ _ (by linarith) hx]
      simp only [String.data_append]
      exact infix_app_right _ _ _ (by decide)

set_option maxRecDepth 100000 in
/-- Witness for C1 at the spec's example input (16, 70, 50, 90). -/
theorem C1_classifier_accumulates_witness :
    (updatePlantHealth 16 70 50 90).status = "At Risk" ∧
      strContains (updatePlantHealth 16 70 50 90).reason "Moisture too high" :=
  ⟨C1_classifier_accumulates.2.1 16 70 50 90 (by decide),
    (C1_classifier_accumulates.2.2 16 70 50 90).2.2.2.2.2.2.2 (by decide)⟩

/-- C2: the pump relay is driven LOW (pump on) exactly when
moisturePercentage < 50, and HIGH (pump off) otherwise; 49 is ON, 50 is OFF. -/
theorem C2_actuator_threshold :
    (∀ m : ℚ, relayCommand m = PinLevel.LOW ↔ m < 50) ∧
    relayCommand 49 = PinLevel.LOW ∧ relayCommand 50 = PinLevel.HIGH := by
  refine ⟨?_, by decide, by decide⟩
  intro m
  unfold relayCommand
  split_ifs with hm
  · exact iff_of_true rfl hm
  · exact iff_of_false (by decide) hm

/-- Witness for C2 at the boundary value 49. -/
theorem C2_actuator_threshold_witness : relayCommand 49 = PinLevel.LOW :=
  (C2_actuator_threshold.1 49).mpr (by decide)

/-- C3 counterexample: raw ADC reading 0 maps to moisturePercentage 187,
outside [0,100] — the sketch applies no clamp to the mapped value, so the
claim is false for readings outside the calibration range. -/
theorem C3_counterexample :
    moisturePercentageOf 0 = 187 ∧
      ¬ (0 ≤ moisturePercentageOf 0 ∧ moisturePercentageOf 0 ≤ 100) := by
  decide

/-- C3 (amended): for raw readings within the calibration range [405, 870],
the mapped moisture percentage lies in [0, 100]. -/
theorem C3_moisture_in_range (r : ℤ) (h1 : 405 ≤ r) (h2 : r ≤ 870) :
    0 ≤ moisturePercentageOf r ∧ moisturePercentageOf r ≤ 100 := by
  obtain ⟨ha, hb⟩ := moisture_map_in_range r h1 h2
  unfold moisturePercentageOf
  exact ⟨by exact_mod_cast ha, by exact_mod_cast hb⟩

/-- Witness for the amended C3 at raw reading 500. -/
theorem C3_moisture_in_range_witness :
    0 ≤ moisturePercentageOf 500 ∧ moisturePercentageOf 500 ≤ 100 :=
  C3_moisture_in_range 500 (by decide) (by decide)

/-- C4: on [405, 870] the mapped moisture percentage is monotonically
non-increasing in the raw reading, and equals 100 at 405 and 0 at 870. -/
theorem C4_moisture_map_antitone :
    moisturePercentageOf 405 = 100 ∧ moisturePercentageOf 870 = 0 ∧
    ∀ r s : ℤ, 405 ≤ r → r ≤ s → s ≤ 870 →
      moisturePercentageOf s ≤ moisturePercentageOf r := by
  refine ⟨by decide, by decide, ?_⟩
  intro r s h1 hrs h2
  unfold moisturePercentageOf
  exact_mod_cast map_moisture_antitone r s h1 hrs

/-- Witness for C4 on the pair 500 ≤ 600. -/
theorem C4_moisture_map_antitone_witness :
    moisturePercentageOf 600 ≤ moisturePercentageOf 500 :=
  C4_moisture_map_antitone.2.2 500 600 (by decide) (by decide) (by decide)

/-- C5: a lux reading ≥ 1000 yields light percentage exactly 100; a lux
reading in [0, 1000) yields exactly lux/10 (upper clamp only). -/
theorem C5_light_conversion :
    (∀ lux : ℚ, 1000 ≤ lux → lightPercentageOf lux = 100) ∧
    (∀ lux : ℚ, 0 ≤ lux → lux < 1000 → lightPercentageOf lux = lux / 10) := by
  constructor
  · intro lux hl
    simp only [lightPercentageOf]
    by_cases hp : lux / 1000 * 100 > 100
    · rw [if_pos hp]
    · rw [if_neg hp]
      push_neg at hp
      linarith
  · intro lux h0 h1
    simp only [lightPercentageOf]
    rw [if_neg (by linarith)]
    ring

/-- Witness for C5 at lux = 1500 (clamped) and lux = 500 (scaled). -/
theorem C5_light_conversion_witness :
    lightPercentageOf 1500 = 100 ∧ lightPercentageOf 500 = 50 :=
  ⟨C5_light_conversion.1 1500 (by norm_num),
    (C5_light_conversion.2 500 (by norm_num) (by norm_num)).trans (by norm_num)⟩

/-- C6: after the classifier runs, the reason string is empty exactly when the
status is "Good". -/
theorem C6_reason_empty_iff_good :
    ∀ t h l m : ℚ,
      ((updatePlantHealth t h l m).reason = "" ↔
        (updatePlantHealth t h l m).status = "Good") := by
  intro t h l m
  rw [reason_empty_iff, status_eq]
  by_cases hv : anyViolation t h l m
  · rw [if_pos hv]
    exact iff_of_false (by tauto) (by decide)
  · rw [if_neg hv]
    exact iff_of_true hv rfl

/-- Witness for C6 at the all-healthy input (20, 50, 70, 60). -/
theorem C6_reason_empty_iff_good_witness :
    (updatePlantHealth 20 50 70 60).reason = "" :=
  (C6_reason_empty_iff_good 20 50 70 60).mpr (by decide)

/-- C7: for every reachable snapshot, GET /health responds 200 with a JSON
body whose status field is exactly "Good" or "At Risk" and whose reason is a
string; GET /readings responds 200 — no error responses exist. -/
theorem C7_endpoints_always_200 :
    ∀ (inputs : Nat → LoopInput) (n : Nat) (numToString : ℚ → String),
      (healthHandler (runLoop inputs n)).1 = 200 ∧
      (readingsHandler numToString (runLoop inputs n)).1 = 200 ∧
      ∃ st rsn : String,
        (st = "Good" ∨ st = "At Risk") ∧
        (healthHandler (runLoop inputs n)).2 =
          "\x7b" ++ "\"status\":\"" ++ st ++ "\"," ++ "\"reason\":\"" ++ rsn ++
            "\"" ++ "\x7d" := by
  intro inputs n numToString
  exact ⟨rfl, rfl, (runLoop inputs n).plantHealthStatus,
    (runLoop inputs n).plantHealthReason, runLoop_status inputs n, rfl⟩

/-- Witness for C7 at the boot snapshot. -/
theorem C7_endpoints_always_200_witness :
    (healthHandler (runLoop (fun _ => ⟨0, 0, 0, 0⟩) 0)).1 = 200 :=
  (C7_endpoints_always_200 (fun _ => ⟨0, 0, 0, 0⟩) 0 (fun _ => "")).1

/-- C8: initialization joins Wi-Fi with a bounded retry — at most
MAX_WIFI_RETRIES = 10 attempts, WIFI_RETRY_DELAY = 1000 ms between attempts —
and the routes are set up and the server started whatever the join outcome. -/
theorem C8_setup_bounded_join :
    MAX_WIFI_RETRIES = 10 ∧ WIFI_RETRY_DELAY = 1000 ∧
    ∀ connected : Nat → Bool,
      (setup connected).wifiRetries ≤ MAX_WIFI_RETRIES ∧
      (setup connected).totalDelayMs = (setup connected).wifiRetries * WIFI_RETRY_DELAY ∧
      (setup connected).routesSetUp = true ∧
      (setup connected).serverStarted = true := by
  refine ⟨rfl, rfl, ?_⟩
  intro connected
  exact ⟨wifiLoop_le connected, rfl, rfl, rfl⟩

/-- Witness for C8 with a network that never connects. -/
theorem C8_setup_bounded_join_witness :
    (setup (fun _ => false)).wifiRetries ≤ MAX_WIFI_RETRIES :=
  (C8_setup_bounded_join.2.2 (fun _ => false)).1

/-- C9: after a loop tick the relay is LOW (pump energized) exactly when the
reason computed in that tick contains "Moisture too low" — both sides test
moisturePercentage < 50 on the same freshly mapped value. -/
theorem C9_relay_iff_reason :
    ∀ (s : Snapshot) (raw : ℤ) (lux tIn hIn : ℚ),
      ((loopStep s raw lux tIn hIn).2 = PinLevel.LOW ↔
        strContains (loopStep s raw lux tIn hIn).1.plantHealthReason
          "Moisture too low") := by
  intro s raw lux tIn hIn
  have h2 : (loopStep s raw lux tIn hIn).2 = relayCommand (moisturePercentageOf raw) := rfl
  have h1 : (loopStep s raw lux tIn hIn).1.plantHealthReason =
      (updatePlantHealth tIn hIn (lightPercentageOf lux)
        (moisturePercentageOf raw)).reason := rfl
  rw [h2, h1, reason_contains_moisture_low_iff]
  unfold relayCommand
  split_ifs with hm
  · exact iff_of_true rfl hm
  · exact iff_of_false (by decide) hm

set_option maxRecDepth 100000 in
/-- Witness for C9 at raw reading 700, which maps to moisture 37 < 50. -/
theorem C9_relay_iff_reason_witness :
    strContains (loopStep initialSnapshot 700 500 20 50).1.plantHealthReason
      "Moisture too low" :=
  (C9_relay_iff_reason initialSnapshot 700 500 20 50).mp (by decide)

/-- C10: plantType holds "Default Plant" at boot and is never modified: one
loop tick (which runs the classifier) preserves it, and it still reads
"Default Plant" after any number of ticks; the HTTP handlers are read-only
functions of the snapshot and change nothing. -/
theorem C10_plantType_constant :
    initialSnapshot.plantType = "Default Plant" ∧
    (∀ (s : Snapshot) (raw : ℤ) (lux tIn hIn : ℚ),
      (loopStep s raw lux tIn hIn).1.plantType = s.plantType) ∧
    (∀ (inputs : Nat → LoopInput) (n : Nat),
      (runLoop inputs n).plantType = "Default Plant") := by
  refine ⟨rfl, fun s raw lux tIn hIn => rfl, ?_⟩
  intro inputs n
  induction n with
  | zero => rfl
  | succ n ih => exact ih

/-- Witness for C10 after three ticks. -/
theorem C10_plantType_constant_witness :
    (runLoop (fun _ => ⟨0, 0, 0, 0⟩) 3).plantType = "Default Plant" :=
  C10_plantType_constant.2.2 (fun _ => ⟨0, 0, 0, 0⟩) 3

end SmartPlant
